import Mathlib

/-!
Shallow embedding of `src/function_app.py` (RZ-DataProcessing): an Azure
Functions app exposing six read-only HTTP endpoints over two PostgreSQL
tables, `sites(site_id, site_name)` and
`metricdata(siteid, recordedat, total_emissions_s1_and_s2, edc, pue)`.

Modelling conventions:
* SQL `timestamp` values are calendar tuples ordered lexicographically
  (`Timestamp`); `ORDER BY recordedat DESC` on a nullable column follows
  PostgreSQL's default `NULLS FIRST` for descending order, modelled by
  sending NULL to `⊤` in `WithTop Timestamp`.
* SQL `numeric` values are `ℚ`; Python `float(x)` is modelled exactly
  (no rounding), but the distinction between the Python int literal `0`
  and a Python float is kept in `PyNum`, because `json.dumps` prints the
  two differently (`0` vs `0.0`).
* `os.getenv("DATABASE_URL")` is an `Option String` (`none` = absent).
* The outcome of `psycopg2.connect` is an oracle `world : Except String DB`,
  where `DB` is the snapshot the connection would observe.  Query execution
  on a connected `DB` is total except for PostgreSQL's cast of the
  `site_id` query parameter to `integer`, which fails on non-numeric text
  (`pgParseInt`).
* Envelope timestamps (`datetime.datetime.now().isoformat()`) are omitted
  from response bodies: they are nondeterministic and independent of the
  data-shaping logic.
-/

/-- A SQL `timestamp` value, modelled by its calendar fields. -/
structure Timestamp where
  year : Nat
  month : Nat
  day : Nat
  hour : Nat
  minute : Nat
  second : Nat
deriving DecidableEq

/-- Lexicographic key of a timestamp: chronological order for in-range
calendar fields. -/
def Timestamp.key (t : Timestamp) : Nat ×ₗ Nat ×ₗ Nat ×ₗ Nat ×ₗ Nat ×ₗ Nat :=
  toLex (t.year, toLex (t.month, toLex (t.day, toLex (t.hour, toLex (t.minute, t.second)))))

theorem Timestamp.key_injective : Function.Injective Timestamp.key := by
  intro a b h
  cases a
  cases b
  simpa [Timestamp.key, Prod.ext_iff] using h

instance : LinearOrder Timestamp :=
  LinearOrder.lift' Timestamp.key Timestamp.key_injective

/-- Zero-pad to two digits, as Python `strftime` does for
`%m`, `%d`, `%H`, `%M`, `%S`. -/
def pad2 (n : Nat) : String :=
  if n < 10 then "0" ++ toString n else toString n

/-- Zero-pad a year to four digits (`%Y`). -/
def pad4 (n : Nat) : String :=
  if n < 10 then "000" ++ toString n
  else if n < 100 then "00" ++ toString n
  else if n < 1000 then "0" ++ toString n
  else toString n

/-- Python `t.strftime("%Y-%m-%d %H:%M:%S")`. -/
def Timestamp.strftime (t : Timestamp) : String :=
  pad4 t.year ++ "-" ++ pad2 t.month ++ "-" ++ pad2 t.day ++ " " ++
    pad2 t.hour ++ ":" ++ pad2 t.minute ++ ":" ++ pad2 t.second

/-- One row of the `sites` table. -/
structure SiteRow where
  site_id : Int
  site_name : String
deriving DecidableEq

/-- One row of the `metricdata` table; every column is nullable, including
the site id. -/
structure MetricRow where
  siteid : Option Int
  recordedat : Option Timestamp
  total_emissions_s1_and_s2 : Option ℚ
  edc : Option ℚ
  pue : Option ℚ
deriving DecidableEq

/-- The database snapshot a successful connection observes.  `version` is
the scalar produced by `SELECT version()`. -/
structure DB where
  sites : List SiteRow
  metricdata : List MetricRow
  version : String
deriving DecidableEq

/-- A JSON number as produced by the Python shaping code: either the int
literal `0` (printed `0` by `json.dumps`) or `float(x)` (printed with a
decimal point). -/
inductive PyNum where
  | intZero : PyNum
  | float : ℚ → PyNum
deriving DecidableEq

/-- Python `float(row[i]) if row[i] else 0` applied to `COALESCE(col, 0)`:
SQL COALESCE turns NULL into 0, and Python truthiness then leaves any zero
value (whether from NULL or a stored 0) as the int literal `0`. -/
def shapeMetricValue (v : Option ℚ) : PyNum :=
  let c : ℚ := v.getD 0
  if c = 0 then PyNum.intZero else PyNum.float c

/-- Python `row.strftime("%Y-%m-%d %H:%M:%S") if row else "N/A"`. -/
def shapeRecordedAt (t : Option Timestamp) : String :=
  match t with
  | some ts => ts.strftime
  | none => "N/A"

/-- Python `row[1] if row[1] else "Unknown"`: the LEFT JOIN may produce a NULL
name, and an empty name is also falsy. -/
def shapeSiteName (s : Option String) : String :=
  match s with
  | some n => if n = "" then "Unknown" else n
  | none => "Unknown"

/-- A `{"siteId": ..., "siteName": ...}` JSON object. -/
structure SiteOut where
  siteId : Int
  siteName : String
deriving DecidableEq

/-- One element of `recentData` in FetchRecentMetricData. -/
structure RecentDataEntry where
  siteId : Int
  siteName : String
  recordedAt : String
  emissions : PyNum
  energyConsumption : PyNum
  powerUsageEffectiveness : PyNum
deriving DecidableEq

/-- One element of `recentMetrics` in GetSiteById. -/
structure MetricEntry where
  recordedAt : String
  emissions : PyNum
  energyConsumption : PyNum
  powerUsageEffectiveness : PyNum
deriving DecidableEq

/-- SQL `ORDER BY site_id` (ascending). -/
def bySiteIdAsc (a b : SiteRow) : Prop := a.site_id ≤ b.site_id

instance : DecidableRel bySiteIdAsc :=
  fun a b => inferInstanceAs (Decidable (a.site_id ≤ b.site_id))

instance : IsTotal SiteRow bySiteIdAsc :=
  ⟨fun a b => Int.le_total a.site_id b.site_id⟩

instance : IsTrans SiteRow bySiteIdAsc :=
  ⟨fun _ _ _ hab hbc => le_trans hab hbc⟩

/-- The sort key of `ORDER BY recordedat DESC`: PostgreSQL places NULLs
first in descending order, i.e. NULL compares above every timestamp. -/
def recKey (m : MetricRow) : WithTop Timestamp :=
  match m.recordedat with
  | none => ⊤
  | some t => (t : WithTop Timestamp)

/-- SQL `ORDER BY recordedat DESC` (NULLS FIRST): row `a` may precede row `b`. -/
def byRecordedAtDesc (a b : MetricRow) : Prop := recKey b ≤ recKey a

instance : DecidableRel byRecordedAtDesc :=
  fun a b => inferInstanceAs (Decidable (recKey b ≤ recKey a))

instance : IsTotal MetricRow byRecordedAtDesc :=
  ⟨fun a b => le_total (recKey b) (recKey a)⟩

instance : IsTrans MetricRow byRecordedAtDesc :=
  ⟨fun _ _ _ hab hbc => le_trans hbc hab⟩

/-- SQL `SELECT site_id, site_name FROM sites ORDER BY site_id` (GetAllSites). -/
def allSitesRows (db : DB) : List SiteRow :=
  List.insertionSort bySiteIdAsc db.sites

/-- Whether a site has at least one `metricdata` row joined on
`s.site_id = m.siteid` (a NULL `siteid` never joins). -/
def isActive (db : DB) (s : SiteRow) : Bool :=
  db.metricdata.any (fun m => decide (m.siteid = some s.site_id))

/-- SQL `SELECT DISTINCT s.site_id, s.site_name FROM sites s INNER JOIN
metricdata m ON s.site_id = m.siteid WHERE s.site_id IS NOT NULL
ORDER BY s.site_id` (GetActiveSites).  `site_id` is non-null by type, so
the WHERE clause is vacuous; DISTINCT over the selected pair is `dedup`. -/
def activeSitesRows (db : DB) : List SiteRow :=
  List.insertionSort bySiteIdAsc ((db.sites.filter (isActive db)).dedup)

/-- SQL `SELECT m.siteid, s.site_name, m.recordedat, COALESCE(...) FROM
metricdata m LEFT JOIN sites s ON m.siteid = s.site_id
WHERE m.siteid IS NOT NULL ORDER BY m.recordedat DESC LIMIT 50`
(FetchRecentMetricData), before row shaping. -/
def recentMetricRows (db : DB) : List MetricRow :=
  (List.insertionSort byRecordedAtDesc
    (db.metricdata.filter (fun m => m.siteid.isSome))).take 50

/-- The `site_name` the LEFT JOIN associates with a metric row (site ids
are unique in the store, so the join is a first-match lookup). -/
def joinedSiteName (db : DB) (m : MetricRow) : Option String :=
  (db.sites.find? (fun s => decide (m.siteid = some s.site_id))).map SiteRow.site_name

/-- Shape one FetchRecentMetricData row into its JSON object.  The query
filters NULL `siteid` out, so `getD 0` is never the NULL fallback. -/
def shapeRecentRow (db : DB) (m : MetricRow) : RecentDataEntry :=
  { siteId := m.siteid.getD 0
    siteName := shapeSiteName (joinedSiteName db m)
    recordedAt := shapeRecordedAt m.recordedat
    emissions := shapeMetricValue m.total_emissions_s1_and_s2
    energyConsumption := shapeMetricValue m.edc
    powerUsageEffectiveness := shapeMetricValue m.pue }

/-- SQL `SELECT recordedat, COALESCE(...) FROM metricdata WHERE siteid = %s
ORDER BY recordedat DESC LIMIT 10` (GetSiteById), before row shaping. -/
def siteMetricRows (db : DB) (n : Int) : List MetricRow :=
  (List.insertionSort byRecordedAtDesc
    (db.metricdata.filter (fun m => decide (m.siteid = some n)))).take 10

/-- Shape one GetSiteById metric row into its JSON object. -/
def shapeSiteMetric (m : MetricRow) : MetricEntry :=
  { recordedAt := shapeRecordedAt m.recordedat
    emissions := shapeMetricValue m.total_emissions_s1_and_s2
    energyConsumption := shapeMetricValue m.edc
    powerUsageEffectiveness := shapeMetricValue m.pue }

/-- Whitespace characters PostgreSQL's integer-input parser skips: space,
tab, newline, carriage return, vertical tab and form feed. -/
def isPgSpace (c : Char) : Bool :=
  c = ' ' ∨ c = '\t' ∨ c = '\n' ∨ c = '\r' ∨ c.toNat = 11 ∨ c.toNat = 12

/-- Drop leading whitespace characters. -/
def dropPgSpaces : List Char → List Char
  | [] => []
  | c :: cs => if isPgSpace c then dropPgSpaces cs else c :: cs

/-- Read a run of decimal digits as a number, failing at any other
character. -/
def pgDigits : List Char → Nat → Option Nat
  | [], acc => some acc
  | c :: cs, acc =>
    if c.isDigit then pgDigits cs (10 * acc + (c.toNat - 48)) else none

/-- Parse an optionally signed, non-empty digit run. -/
def pgSignedDigits : List Char → Option Int
  | [] => none
  | '+' :: cs => if cs = [] then none else (pgDigits cs 0).map (fun v => (v : Int))
  | '-' :: cs => if cs = [] then none else (pgDigits cs 0).map (fun v => -(v : Int))
  | cs => (pgDigits cs 0).map (fun v => (v : Int))

/-- Smallest `int4` value, `-2^31`. -/
def int4Min : Int := -2147483648

/-- Largest `int4` value, `2^31 - 1`. -/
def int4Max : Int := 2147483647

/-- PostgreSQL's cast of a text query parameter to `integer`
(`WHERE site_id = %s` binds a Python string): surrounding whitespace and a
leading sign are accepted and the value must fit `int4`; non-numeric text
raises `invalid input syntax for type integer` and an out-of-range value
raises `value out of range for type integer`, either way failing the
query. -/
def pgParseInt (s : String) : Option Int :=
  match pgSignedDigits (dropPgSpaces ((dropPgSpaces s.data.reverse).reverse)) with
  | none => none
  | some v => if int4Min ≤ v ∧ v ≤ int4Max then some v else none

/-- The outcome of `get_db_connection()`. -/
inductive ConnResult where
  /-- Python `ValueError("DATABASE_URL environment variable is not set")`, raised
  before `psycopg2.connect` is reached. -/
  | configError (msg : String)
  /-- A `psycopg2.Error` raised by `psycopg2.connect`. -/
  | connectFailed (msg : String)
  /-- A live connection observing snapshot `db`. -/
  | connected (db : DB)
deriving DecidableEq

/-- The `ValueError` text used by `get_db_connection`. -/
def dbUrlMissingMsg : String := "DATABASE_URL environment variable is not set"

/-- Python `get_db_connection`: read `DATABASE_URL`; if absent or empty (falsy),
raise `ValueError` without touching the network; otherwise attempt
`psycopg2.connect`, whose outcome the `world` oracle supplies. -/
def get_db_connection (env : Option String) (world : Except String DB) : ConnResult :=
  match env with
  | none => .configError dbUrlMissingMsg
  | some url =>
    if url = "" then .configError dbUrlMissingMsg
    else
      match world with
      | .error e => .connectFailed e
      | .ok db => .connected db

/-- JSON response bodies, by shape. -/
inductive Body where
  /-- GetAllSites 200: `status`, `message`, `sites`, `totalSites`. -/
  | allSitesOk (sites : List SiteOut) (totalSites : Nat)
  /-- GetActiveSites 200. -/
  | activeSitesOk (activeSites : List SiteOut) (totalActiveSites : Nat) (totalRecords : Nat)
  /-- ConnectivityTest 200, carrying `environment_check.DATABASE_URL`. -/
  | connectivityOk (databaseUrlFlag : String)
  /-- DatabaseTest 200, carrying `database_version`. -/
  | dbTestOk (databaseVersion : String)
  /-- FetchRecentMetricData 200. -/
  | recentOk (recentData : List RecentDataEntry) (dataPoints : Nat)
  /-- GetSiteById 200. -/
  | siteOk (site : SiteOut) (recentMetrics : List MetricEntry) (metricsCount : Nat)
  /-- An error body `{"error": ..., ("details": ...,) "type": ...}`. -/
  | errBody (error : String) (details : Option String) (etype : String)
  /-- GetSiteById 400: `{"error": ..., "usage": ...}`. -/
  | badRequest (error : String) (usage : String)
  /-- GetSiteById 404: `{"error": ...}`. -/
  | siteNotFound (error : String)
deriving DecidableEq

/-- An HTTP response: status code plus JSON body. -/
structure Response where
  status_code : Nat
  body : Body
deriving DecidableEq

/-- Shape a `sites` row into `{"siteId": row[0], "siteName": row[1]}`. -/
def shapeSiteRow (s : SiteRow) : SiteOut :=
  { siteId := s.site_id, siteName := s.site_name }

/-- Endpoint 1, `GetAllSites`.  A `ValueError` from `get_db_connection` is
not a `psycopg2.Error`, so it lands in the generic `except Exception`
branch. -/
def GetAllSites (env : Option String) (world : Except String DB) : Response :=
  match get_db_connection env world with
  | .connected db =>
    let sites := (allSitesRows db).map shapeSiteRow
    ⟨200, .allSitesOk sites sites.length⟩
  | .connectFailed e =>
    ⟨500, .errBody "Database connection failed" (some e) "database_error"⟩
  | .configError msg =>
    ⟨500, .errBody ("Function execution failed: " ++ msg) none "general_error"⟩

/-- Endpoint 2, `GetActiveSites`. -/
def GetActiveSites (env : Option String) (world : Except String DB) : Response :=
  match get_db_connection env world with
  | .connected db =>
    let sites := (activeSitesRows db).map shapeSiteRow
    ⟨200, .activeSitesOk sites sites.length db.metricdata.length⟩
  | .connectFailed e =>
    ⟨500, .errBody "Database connection failed" (some e) "database_error"⟩
  | .configError msg =>
    ⟨500, .errBody ("Function execution failed: " ++ msg) none "general_error"⟩

/-- Endpoint 3, `ConnectivityTest`: never touches the database (the `world`
oracle is ignored); reports `"Set" if os.getenv("DATABASE_URL") else
"Not set"`, so an empty value is reported as `"Not set"`. -/
def ConnectivityTest (env : Option String) (_world : Except String DB) : Response :=
  ⟨200, .connectivityOk
    (match env with
     | some url => if url = "" then "Not set" else "Set"
     | none => "Not set")⟩

/-- Endpoint 4, `DatabaseTest`: a single `except Exception` branch catches
both the `ValueError` and driver errors. -/
def DatabaseTest (env : Option String) (world : Except String DB) : Response :=
  match get_db_connection env world with
  | .connected db => ⟨200, .dbTestOk db.version⟩
  | .connectFailed e =>
    ⟨500, .errBody ("Database connection failed: " ++ e) none "database_connection_error"⟩
  | .configError msg =>
    ⟨500, .errBody ("Database connection failed: " ++ msg) none "database_connection_error"⟩

/-- Endpoint 5, `FetchRecentMetricData`: a single `except Exception` branch
catches every failure with type `data_fetch_error`. -/
def FetchRecentMetricData (env : Option String) (world : Except String DB) : Response :=
  match get_db_connection env world with
  | .connected db =>
    let data := (recentMetricRows db).map (shapeRecentRow db)
    ⟨200, .recentOk data data.length⟩
  | .connectFailed e =>
    ⟨500, .errBody ("Failed to fetch recent data: " ++ e) none "data_fetch_error"⟩
  | .configError msg =>
    ⟨500, .errBody ("Failed to fetch recent data: " ++ msg) none "data_fetch_error"⟩

/-- The 400 body of GetSiteById (`if not site_id`). -/
def missingParamBody : Body :=
  .badRequest "site_id parameter is required" "Add ?site_id=<site_id> to the URL"

/-- Endpoint 6, `GetSiteById`.  The parameter check precedes the `try`
block; a failed integer cast of the parameter inside the first
`cursor.execute` raises a `psycopg2` error, caught by the single
`except Exception` branch with type `site_fetch_error`.  The Python 404
message wraps the id in single quotes; the quotes are elided here. -/
def GetSiteById (env : Option String) (world : Except String DB)
    (site_id : Option String) : Response :=
  match site_id with
  | none => ⟨400, missingParamBody⟩
  | some sid =>
    if sid = "" then ⟨400, missingParamBody⟩
    else
      match get_db_connection env world with
      | .configError msg =>
        ⟨500, .errBody ("Failed to get site details: " ++ msg) none "site_fetch_error"⟩
      | .connectFailed e =>
        ⟨500, .errBody ("Failed to get site details: " ++ e) none "site_fetch_error"⟩
      | .connected db =>
        match pgParseInt sid with
        | none =>
          ⟨500, .errBody
            ("Failed to get site details: invalid input syntax for type integer: " ++ sid)
            none "site_fetch_error"⟩
        | some n =>
          match db.sites.find? (fun s => decide (s.site_id = n)) with
          | none => ⟨404, .siteNotFound ("Site with ID " ++ sid ++ " not found")⟩
          | some s =>
            let ms := (siteMetricRows db n).map shapeSiteMetric
            ⟨200, .siteOk (shapeSiteRow s) ms ms.length⟩

/-- The `type` field of an error body, if any. -/
def Response.errType : Response → Option String
  | ⟨_, .errBody _ _ t⟩ => some t
  | _ => none

/-- The `error` field of the body, if any. -/
def Response.errText : Response → Option String
  | ⟨_, .errBody e _ _⟩ => some e
  | ⟨_, .badRequest e _⟩ => some e
  | ⟨_, .siteNotFound e⟩ => some e
  | _ => none

/-- The count field a success body reports (`totalSites`,
`totalActiveSites`, `dataPoints`, `metricsCount`). -/
def Body.countField : Body → Option Nat
  | .allSitesOk _ n => some n
  | .activeSitesOk _ n _ => some n
  | .recentOk _ n => some n
  | .siteOk _ _ n => some n
  | _ => none

/-- The length of the array the count field describes. -/
def Body.arrayLength : Body → Option Nat
  | .allSitesOk l _ => some l.length
  | .activeSitesOk l _ _ => some l.length
  | .recentOk l _ => some l.length
  | .siteOk _ l _ => some l.length
  | _ => none

/-- An empty database snapshot, used as a concrete world. -/
def dbEmpty : DB := ⟨[], [], "PostgreSQL 16.0"⟩

/-- A database close to the spec's worked example: site 12 "Dublin-1" with
one metric row dated 2024-01-01 10:00:00 whose only non-null metric is
`pue = 2`. -/
def row1 : MetricRow := ⟨some 12, some ⟨2024, 1, 1, 10, 0, 0⟩, none, none, some 2⟩

/-- One-site snapshot built around `row1`. -/
def dbOneSite : DB := ⟨[⟨12, "Dublin-1"⟩], [row1], "PostgreSQL 16.0"⟩

/-- A syntactically plausible connection URL, used as a concrete non-empty
`DATABASE_URL` value. -/
def dbUrl : String := "postgresql://user:pw@host:5432/metrics"

theorem siteMetricRows_length_le (db : DB) (n : Int) :
    (siteMetricRows db n).length ≤ 10 :=
  List.length_take_le 10 _

theorem siteMetricRows_sorted (db : DB) (n : Int) :
    List.Sorted byRecordedAtDesc (siteMetricRows db n) :=
  List.Pairwise.sublist (List.take_sublist _ _)
    (List.sorted_insertionSort byRecordedAtDesc _)

theorem siteMetricRows_scoped (db : DB) (n : Int) :
    ∀ m ∈ siteMetricRows db n, m.siteid = some n := by
  intro m hm
  have h1 := List.mem_of_mem_take hm
  have h2 := (List.perm_insertionSort byRecordedAtDesc _).mem_iff.mp h1
  simpa using (List.mem_filter.mp h2).2

theorem recentMetricRows_length_le (db : DB) :
    (recentMetricRows db).length ≤ 50 :=
  List.length_take_le 50 _

theorem recentMetricRows_sorted (db : DB) :
    List.Sorted byRecordedAtDesc (recentMetricRows db) :=
  List.Pairwise.sublist (List.take_sublist _ _)
    (List.sorted_insertionSort byRecordedAtDesc _)

theorem recentMetricRows_siteid_isSome (db : DB) :
    ∀ m ∈ recentMetricRows db, m.siteid ≠ none := by
  intro m hm
  have h1 := List.mem_of_mem_take hm
  have h2 := (List.perm_insertionSort byRecordedAtDesc _).mem_iff.mp h1
  have h3 := (List.mem_filter.mp h2).2
  simp only [Option.isSome_iff_exists] at h3
  rcases h3 with ⟨x, hx⟩
  simp [hx]

/-- C7: the row-shaping is the claimed coalesce law except at a stored 0:
NULL metrics shape to the int `0`, a NULL timestamp shapes to `"N/A"`, a
non-null timestamp is formatted `YYYY-MM-DD HH:MM:SS`, and a non-null
*nonzero* metric is converted to a float — but a stored (non-null) `0` is
left as the int `0`, because Python truthiness conflates `0` with NULL. -/
theorem C7_amended (v : ℚ) (t : Timestamp) (hv : v ≠ 0) :
    shapeMetricValue none = PyNum.intZero ∧
    shapeRecordedAt none = "N/A" ∧
    shapeMetricValue (some v) = PyNum.float v ∧
    shapeRecordedAt (some t) = t.strftime ∧
    shapeMetricValue (some 0) = PyNum.intZero ∧
    Timestamp.strftime ⟨2024, 1, 1, 10, 0, 0⟩ = "2024-01-01 10:00:00" := by
  refine ⟨rfl, rfl, ?_, rfl, by decide, by decide⟩
  simp [shapeMetricValue, hv]

/-- C7 (counterexample): the claim says every non-null metric is converted
to a floating-point number, but a stored `0` is shaped to the int literal
`0` (`json.dumps` prints `0`, not `0.0`), not to `float(0)`. -/
theorem C7_counterexample :
    shapeMetricValue (some 0) = PyNum.intZero ∧
    shapeMetricValue (some 0) ≠ PyNum.float 0 := by
  refine ⟨by decide, by decide⟩

/-- C7 (witness): the amended shaping law evaluated at `pue = 1.4` and the
spec's example timestamp. -/
theorem C7_witness :
    shapeMetricValue none = PyNum.intZero ∧
    shapeRecordedAt none = "N/A" ∧
    shapeMetricValue (some (7 / 5)) = PyNum.float (7 / 5) ∧
    shapeRecordedAt (some ⟨2024, 1, 1, 10, 0, 0⟩) =
      Timestamp.strftime ⟨2024, 1, 1, 10, 0, 0⟩ ∧
    shapeMetricValue (some 0) = PyNum.intZero ∧
    Timestamp.strftime ⟨2024, 1, 1, 10, 0, 0⟩ = "2024-01-01 10:00:00" :=
  C7_amended (7 / 5) ⟨2024, 1, 1, 10, 0, 0⟩ (by norm_num)

/-- C9 (amended): ConnectivityTest always returns 200 without reading the
database (the response is independent of the connection world), and its
`environment_check.DATABASE_URL` flag is `"Set"` exactly when the variable
is present *and non-empty*; a present-but-empty value reports `"Not set"`,
because the code tests Python truthiness, not presence. -/
theorem C9_amended (env : Option String) (w w' : Except String DB) :
    (ConnectivityTest env w).status_code = 200 ∧
    ConnectivityTest env w = ConnectivityTest env w' ∧
    ((ConnectivityTest env w).body = Body.connectivityOk "Set" ↔
      ∃ url, env = some url ∧ url ≠ "") ∧
    ((ConnectivityTest env w).body = Body.connectivityOk "Not set" ↔
      env = none ∨ env = some "") := by
  have hne : ("Set" : String) ≠ "Not set" := by decide
  refine ⟨rfl, rfl, ?_, ?_⟩ <;>
  · cases env with
    | none => simp [ConnectivityTest, hne, Ne.symm hne]
    | some url =>
      by_cases h : url = "" <;> simp [ConnectivityTest, h, hne, Ne.symm hne]

/-- C9 (counterexample): with `DATABASE_URL` present but empty, the flag
reads `"Not set"`, though the claim requires `"Set"` whenever the variable
is present. -/
theorem C9_counterexample :
    (ConnectivityTest (some "") (Except.ok dbEmpty)).status_code = 200 ∧
    (ConnectivityTest (some "") (Except.ok dbEmpty)).body = Body.connectivityOk "Not set" ∧
    (ConnectivityTest (some "") (Except.ok dbEmpty)).body ≠ Body.connectivityOk "Set" := by
  refine ⟨rfl, rfl, by decide⟩

/-- C10: in every response of the four data endpoints, the reported count
field equals the length of the array it describes (success bodies carry
`some`, error bodies carry `none` on both sides). -/
theorem C10_confirmed (env : Option String) (w : Except String DB) (p : Option String) :
    (GetAllSites env w).body.countField = (GetAllSites env w).body.arrayLength ∧
    (GetActiveSites env w).body.countField = (GetActiveSites env w).body.arrayLength ∧
    (FetchRecentMetricData env w).body.countField =
      (FetchRecentMetricData env w).body.arrayLength ∧
    (GetSiteById env w p).body.countField = (GetSiteById env w p).body.arrayLength := by
  refine ⟨?_, ?_, ?_, ?_⟩
  · cases hc : get_db_connection env w <;>
      simp [GetAllSites, hc, Body.countField, Body.arrayLength]
  · cases hc : get_db_connection env w <;>
      simp [GetActiveSites, hc, Body.countField, Body.arrayLength]
  · cases hc : get_db_connection env w <;>
      simp [FetchRecentMetricData, hc, Body.countField, Body.arrayLength]
  · cases p with
    | none => simp [GetSiteById, missingParamBody, Body.countField, Body.arrayLength]
    | some sid =>
      by_cases hsid : sid = ""
      · simp [GetSiteById, hsid, missingParamBody, Body.countField, Body.arrayLength]
      · cases hc : get_db_connection env w with
        | configError msg =>
          simp [GetSiteById, hsid, hc, Body.countField, Body.arrayLength]
        | connectFailed e =>
          simp [GetSiteById, hsid, hc, Body.countField, Body.arrayLength]
        | connected db =>
          cases hp : pgParseInt sid with
          | none => simp [GetSiteById, hsid, hc, hp, Body.countField, Body.arrayLength]
          | some n =>
            cases hf : db.sites.find? (fun s => decide (s.site_id = n)) with
            | none =>
              simp [GetSiteById, hsid, hc, hp, hf, Body.countField, Body.arrayLength]
            | some s =>
              simp [GetSiteById, hsid, hc, hp, hf, Body.countField, Body.arrayLength]

/-- C4: GetSiteById with the `site_id` parameter missing or empty returns
400 with the usage hint, and the response does not depend on the
environment or on the database world — the check runs before any database
access. -/
theorem C4_confirmed (env : Option String) (w : Except String DB) (p : Option String)
    (hp : p = none ∨ p = some "") :
    (GetSiteById env w p).status_code = 400 ∧
    (GetSiteById env w p).body = missingParamBody ∧
    ∀ env' w', GetSiteById env w p = GetSiteById env' w' p := by
  rcases hp with rfl | rfl
  · exact ⟨rfl, rfl, fun _ _ => rfl⟩
  · exact ⟨rfl, rfl, fun _ _ => rfl⟩

/-- C4 (witness): the missing-parameter 400 evaluated at an absent
parameter against the empty world. -/
theorem C4_witness :
    (GetSiteById none (Except.ok dbEmpty) none).status_code = 400 ∧
    (GetSiteById none (Except.ok dbEmpty) none).body = missingParamBody :=
  ⟨(C4_confirmed none (Except.ok dbEmpty) none (Or.inl rfl)).1,
   (C4_confirmed none (Except.ok dbEmpty) none (Or.inl rfl)).2.1⟩

/-- C1 (amended): with `DATABASE_URL` absent or empty every connecting
handler still returns 500 without any network attempt (the response is
independent of the connection world), but the `ValueError` is not a
`psycopg2.Error`, so no handler labels it `database_error`: GetAllSites
and GetActiveSites say `general_error`, DatabaseTest says
`database_connection_error`, FetchRecentMetricData says
`data_fetch_error`, and GetSiteById says `site_fetch_error`. -/
theorem C1_amended (env : Option String) (henv : env = none ∨ env = some "")
    (w : Except String DB) (sid : String) (hsid : sid ≠ "") :
    ((GetAllSites env w).status_code = 500 ∧
      (GetAllSites env w).errType = some "general_error") ∧
    ((GetActiveSites env w).status_code = 500 ∧
      (GetActiveSites env w).errType = some "general_error") ∧
    ((DatabaseTest env w).status_code = 500 ∧
      (DatabaseTest env w).errType = some "database_connection_error") ∧
    ((FetchRecentMetricData env w).status_code = 500 ∧
      (FetchRecentMetricData env w).errType = some "data_fetch_error") ∧
    ((GetSiteById env w (some sid)).status_code = 500 ∧
      (GetSiteById env w (some sid)).errType = some "site_fetch_error") ∧
    ∀ w' : Except String DB,
      GetAllSites env w = GetAllSites env w' ∧
      GetActiveSites env w = GetActiveSites env w' ∧
      DatabaseTest env w = DatabaseTest env w' ∧
      FetchRecentMetricData env w = FetchRecentMetricData env w' ∧
      GetSiteById env w (some sid) = GetSiteById env w' (some sid) := by
  have hconn : ∀ w₀ : Except String DB,
      get_db_connection env w₀ = ConnResult.configError dbUrlMissingMsg := by
    intro w₀
    rcases henv with rfl | rfl <;> rfl
  refine ⟨⟨?_, ?_⟩, ⟨?_, ?_⟩, ⟨?_, ?_⟩, ⟨?_, ?_⟩, ⟨?_, ?_⟩, ?_⟩ <;>
    simp [GetAllSites, GetActiveSites, DatabaseTest, FetchRecentMetricData,
      GetSiteById, hconn, hsid, Response.errType]

/-- C1 (counterexample): `GetAllSites` with `DATABASE_URL` absent returns
500 whose `type` field is `general_error`, not the claimed
`database_error`. -/
theorem C1_counterexample :
    (GetAllSites none (Except.ok dbEmpty)).status_code = 500 ∧
    (GetAllSites none (Except.ok dbEmpty)).errType = some "general_error" ∧
    (GetAllSites none (Except.ok dbEmpty)).errType ≠ some "database_error" := by
  refine ⟨rfl, rfl, by decide⟩

/-- C1 (witness): the amended error labels evaluated with an absent
variable against the empty world and parameter `"7"`. -/
theorem C1_witness :
    ((GetAllSites none (Except.ok dbEmpty)).status_code = 500 ∧
      (GetAllSites none (Except.ok dbEmpty)).errType = some "general_error") ∧
    ((GetActiveSites none (Except.ok dbEmpty)).status_code = 500 ∧
      (GetActiveSites none (Except.ok dbEmpty)).errType = some "general_error") ∧
    ((DatabaseTest none (Except.ok dbEmpty)).status_code = 500 ∧
      (DatabaseTest none (Except.ok dbEmpty)).errType = some "database_connection_error") ∧
    ((FetchRecentMetricData none (Except.ok dbEmpty)).status_code = 500 ∧
      (FetchRecentMetricData none (Except.ok dbEmpty)).errType = some "data_fetch_error") ∧
    ((GetSiteById none (Except.ok dbEmpty) (some "7")).status_code = 500 ∧
      (GetSiteById none (Except.ok dbEmpty) (some "7")).errType = some "site_fetch_error") :=
  ⟨(C1_amended none (Or.inl rfl) (Except.ok dbEmpty) "7" (by decide)).1,
   (C1_amended none (Or.inl rfl) (Except.ok dbEmpty) "7" (by decide)).2.1,
   (C1_amended none (Or.inl rfl) (Except.ok dbEmpty) "7" (by decide)).2.2.1,
   (C1_amended none (Or.inl rfl) (Except.ok dbEmpty) "7" (by decide)).2.2.2.1,
   (C1_amended none (Or.inl rfl) (Except.ok dbEmpty) "7" (by decide)).2.2.2.2.1⟩

/-- C2 (amended): exceptions outside the driver/not-found/missing-parameter
cases (exhibited by the `ValueError` for a missing `DATABASE_URL`, and for
the catch-all handlers also by driver errors) yield 500 with the error
message embedding the exception text, but the `type` field is
`general_error` only in GetAllSites and GetActiveSites;
FetchRecentMetricData labels every failure `data_fetch_error` and
GetSiteById labels every failure `site_fetch_error`. -/
theorem C2_amended (env : Option String) (henv : env = none ∨ env = some "")
    (w : Except String DB) (url e sid : String) (hurl : url ≠ "") (hsid : sid ≠ "") :
    ((GetAllSites env w).status_code = 500 ∧
      (GetAllSites env w).errType = some "general_error" ∧
      (GetAllSites env w).errText =
        some ("Function execution failed: " ++ dbUrlMissingMsg)) ∧
    ((GetActiveSites env w).status_code = 500 ∧
      (GetActiveSites env w).errType = some "general_error" ∧
      (GetActiveSites env w).errText =
        some ("Function execution failed: " ++ dbUrlMissingMsg)) ∧
    ((FetchRecentMetricData env w).status_code = 500 ∧
      (FetchRecentMetricData env w).errType = some "data_fetch_error" ∧
      (FetchRecentMetricData env w).errText =
        some ("Failed to fetch recent data: " ++ dbUrlMissingMsg)) ∧
    ((FetchRecentMetricData (some url) (Except.error e)).status_code = 500 ∧
      (FetchRecentMetricData (some url) (Except.error e)).errType =
        some "data_fetch_error" ∧
      (FetchRecentMetricData (some url) (Except.error e)).errText =
        some ("Failed to fetch recent data: " ++ e)) ∧
    ((GetSiteById env w (some sid)).status_code = 500 ∧
      (GetSiteById env w (some sid)).errType = some "site_fetch_error" ∧
      (GetSiteById env w (some sid)).errText =
        some ("Failed to get site details: " ++ dbUrlMissingMsg)) ∧
    ((GetSiteById (some url) (Except.error e) (some sid)).status_code = 500 ∧
      (GetSiteById (some url) (Except.error e) (some sid)).errType =
        some "site_fetch_error" ∧
      (GetSiteById (some url) (Except.error e) (some sid)).errText =
        some ("Failed to get site details: " ++ e)) := by
  have hconn : ∀ w₀ : Except String DB,
      get_db_connection env w₀ = ConnResult.configError dbUrlMissingMsg := by
    intro w₀
    rcases henv with rfl | rfl <;> rfl
  have hconn2 : get_db_connection (some url) (Except.error e) =
      ConnResult.connectFailed e := by
    simp [get_db_connection, hurl]
  refine ⟨⟨?_, ?_, ?_⟩, ⟨?_, ?_, ?_⟩, ⟨?_, ?_, ?_⟩, ⟨?_, ?_, ?_⟩,
    ⟨?_, ?_, ?_⟩, ⟨?_, ?_, ?_⟩⟩ <;>
    simp [GetAllSites, GetActiveSites, FetchRecentMetricData, GetSiteById,
      hconn, hconn2, hsid, Response.errType, Response.errText]

/-- C2 (counterexample): the `ValueError` for a missing `DATABASE_URL` is
not a driver error, a not-found case, or a missing-parameter case, yet
FetchRecentMetricData labels it `data_fetch_error`, not the claimed
`general_error`. -/
theorem C2_counterexample :
    (FetchRecentMetricData none (Except.ok dbEmpty)).status_code = 500 ∧
    (FetchRecentMetricData none (Except.ok dbEmpty)).errType = some "data_fetch_error" ∧
    (FetchRecentMetricData none (Except.ok dbEmpty)).errType ≠ some "general_error" := by
  refine ⟨rfl, rfl, by decide⟩

/-- C2 (witness): the amended error mapping evaluated with an absent
variable, url `dbUrl`, driver text `"connection refused"`, parameter
`"7"`. -/
theorem C2_witness :
    ((GetAllSites none (Except.ok dbEmpty)).status_code = 500 ∧
      (GetAllSites none (Except.ok dbEmpty)).errType = some "general_error" ∧
      (GetAllSites none (Except.ok dbEmpty)).errText =
        some ("Function execution failed: " ++ dbUrlMissingMsg)) ∧
    ((FetchRecentMetricData (some dbUrl) (Except.error "connection refused")).status_code = 500 ∧
      (FetchRecentMetricData (some dbUrl) (Except.error "connection refused")).errType =
        some "data_fetch_error" ∧
      (FetchRecentMetricData (some dbUrl) (Except.error "connection refused")).errText =
        some ("Failed to fetch recent data: " ++ "connection refused")) ∧
    ((GetSiteById (some dbUrl) (Except.error "connection refused") (some "7")).status_code = 500 ∧
      (GetSiteById (some dbUrl) (Except.error "connection refused") (some "7")).errType =
        some "site_fetch_error" ∧
      (GetSiteById (some dbUrl) (Except.error "connection refused") (some "7")).errText =
        some ("Failed to get site details: " ++ "connection refused")) :=
  ⟨(C2_amended none (Or.inl rfl) (Except.ok dbEmpty) dbUrl "connection refused" "7"
      (by decide) (by decide)).1,
   (C2_amended none (Or.inl rfl) (Except.ok dbEmpty) dbUrl "connection refused" "7"
      (by decide) (by decide)).2.2.2.1,
   (C2_amended none (Or.inl rfl) (Except.ok dbEmpty) dbUrl "connection refused" "7"
      (by decide) (by decide)).2.2.2.2.2⟩

/-- C3 (amended): a supplied `site_id` that PostgreSQL can cast to an
`int4` (numeric and within `-2^31 .. 2^31 - 1`) matching no `sites` row
yields 404 with a descriptive message, never 500 and never 200; the cast
restriction is forced by the code, since a non-castable or out-of-range
value makes the first query itself fail (see the counterexample). -/
theorem C3_amended (url : String) (hurl : url ≠ "") (db : DB) (sid : String) (n : Int)
    (hparse : pgParseInt sid = some n)
    (habsent : ∀ s ∈ db.sites, s.site_id ≠ n) :
    (GetSiteById (some url) (Except.ok db) (some sid)).status_code = 404 ∧
    (GetSiteById (some url) (Except.ok db) (some sid)).body =
      Body.siteNotFound ("Site with ID " ++ sid ++ " not found") ∧
    (GetSiteById (some url) (Except.ok db) (some sid)).status_code ≠ 500 ∧
    (GetSiteById (some url) (Except.ok db) (some sid)).status_code ≠ 200 := by
  have hsid : ¬ sid = "" := by
    intro h
    subst h
    have h0 : pgParseInt "" = none := by decide
    rw [h0] at hparse
    exact Option.noConfusion hparse
  have hfind : db.sites.find? (fun s => decide (s.site_id = n)) = none := by
    rw [List.find?_eq_none]
    intro s hs
    simp [habsent s hs]
  simp [GetSiteById, get_db_connection, hurl, hsid, hparse, hfind]

/-- C3 (counterexample): the supplied values `"abc"` and `"10000000000"`
match no row of the `sites` table, yet the response is 500, not 404 —
PostgreSQL fails to cast the bound text parameter to `integer` (invalid
syntax for the first, out of `int4` range for the second) and the
handler's `except Exception` reports the driver error. -/
theorem C3_counterexample :
    pgParseInt "abc" = none ∧
    (GetSiteById (some dbUrl) (Except.ok dbOneSite) (some "abc")).status_code = 500 ∧
    (GetSiteById (some dbUrl) (Except.ok dbOneSite) (some "abc")).status_code ≠ 404 ∧
    pgParseInt "10000000000" = none ∧
    (GetSiteById (some dbUrl) (Except.ok dbOneSite) (some "10000000000")).status_code = 500 ∧
    (GetSiteById (some dbUrl) (Except.ok dbOneSite) (some "10000000000")).status_code ≠ 404 := by
  refine ⟨by decide, rfl, by decide, by decide, rfl, by decide⟩

/-- C3 (witness): the amended not-found behaviour at id `"999"` against the
one-site snapshot. -/
theorem C3_witness :
    (GetSiteById (some dbUrl) (Except.ok dbOneSite) (some "999")).status_code = 404 ∧
    (GetSiteById (some dbUrl) (Except.ok dbOneSite) (some "999")).body =
      Body.siteNotFound ("Site with ID " ++ "999" ++ " not found") ∧
    (GetSiteById (some dbUrl) (Except.ok dbOneSite) (some "999")).status_code ≠ 500 ∧
    (GetSiteById (some dbUrl) (Except.ok dbOneSite) (some "999")).status_code ≠ 200 :=
  C3_amended dbUrl (by decide) dbOneSite "999" 999 (by decide) (by decide)

/-- C5: every successful GetSiteById response carries exactly the shaped
rows of the ten-row query for the requested id: at most 10 entries, rows
sorted by `recordedat` descending, and every row scoped to the requested
site id. -/
theorem C5_confirmed (env : Option String) (db : DB) (sid : String) (n : Int)
    (site : SiteOut) (ms : List MetricEntry) (k : Nat)
    (hparse : pgParseInt sid = some n)
    (hsucc : GetSiteById env (Except.ok db) (some sid) = ⟨200, Body.siteOk site ms k⟩) :
    ms = (siteMetricRows db n).map shapeSiteMetric ∧
    ms.length ≤ 10 ∧
    List.Sorted byRecordedAtDesc (siteMetricRows db n) ∧
    ∀ m ∈ siteMetricRows db n, m.siteid = some n := by
  by_cases hsid : sid = ""
  · rw [hsid] at hsucc
    simp [GetSiteById] at hsucc
  · rcases env with _ | url
    · simp [GetSiteById, get_db_connection, hsid] at hsucc
    · by_cases hurl : url = ""
      · subst hurl
        simp [GetSiteById, get_db_connection, hsid] at hsucc
      · rcases hf : db.sites.find? (fun s => decide (s.site_id = n)) with _ | s
        · simp [GetSiteById, get_db_connection, hsid, hurl, hparse, hf] at hsucc
        · simp [GetSiteById, get_db_connection, hsid, hurl, hparse, hf] at hsucc
          obtain ⟨h1, h2, h3⟩ := hsucc
          refine ⟨h2.symm, ?_, siteMetricRows_sorted db n, siteMetricRows_scoped db n⟩
          rw [← h2]
          simpa using siteMetricRows_length_le db n

/-- C5 (witness): the success shape evaluated on the one-site snapshot at
id `"12"`. -/
theorem C5_witness :
    ([⟨"2024-01-01 10:00:00", PyNum.intZero, PyNum.intZero,
        PyNum.float 2⟩] : List MetricEntry) =
      (siteMetricRows dbOneSite 12).map shapeSiteMetric ∧
    ([⟨"2024-01-01 10:00:00", PyNum.intZero, PyNum.intZero,
        PyNum.float 2⟩] : List MetricEntry).length ≤ 10 :=
  ⟨(C5_confirmed (some dbUrl) dbOneSite "12" 12 ⟨12, "Dublin-1"⟩
      [⟨"2024-01-01 10:00:00", PyNum.intZero, PyNum.intZero, PyNum.float 2⟩] 1
      (by decide) (by decide)).1,
   (C5_confirmed (some dbUrl) dbOneSite "12" 12 ⟨12, "Dublin-1"⟩
      [⟨"2024-01-01 10:00:00", PyNum.intZero, PyNum.intZero, PyNum.float 2⟩] 1
      (by decide) (by decide)).2.1⟩

/-- C6: every successful FetchRecentMetricData response carries the shaped
rows of the fifty-row query: at most 50 entries, rows sorted by
`recordedat` descending, every row with a non-null site id, and null
metric fields rendered as the number `0` (present, non-null, by
construction of the entry type). -/
theorem C6_confirmed (env : Option String) (db : DB)
    (data : List RecentDataEntry) (dp : Nat)
    (hsucc : FetchRecentMetricData env (Except.ok db) = ⟨200, Body.recentOk data dp⟩) :
    data = (recentMetricRows db).map (shapeRecentRow db) ∧
    data.length ≤ 50 ∧
    List.Sorted byRecordedAtDesc (recentMetricRows db) ∧
    (∀ m ∈ recentMetricRows db, m.siteid ≠ none) ∧
    ∀ m ∈ recentMetricRows db,
      (m.total_emissions_s1_and_s2 = none →
        (shapeRecentRow db m).emissions = PyNum.intZero) ∧
      (m.edc = none → (shapeRecentRow db m).energyConsumption = PyNum.intZero) ∧
      (m.pue = none → (shapeRecentRow db m).powerUsageEffectiveness = PyNum.intZero) := by
  rcases hc : get_db_connection env (Except.ok db) with msg | e | db'
  · simp [FetchRecentMetricData, hc] at hsucc
  · simp [FetchRecentMetricData, hc] at hsucc
  · have hdb : db' = db := by
      rcases env with _ | url
      · simp [get_db_connection] at hc
      · by_cases hurl : url = ""
        · simp [get_db_connection, hurl] at hc
        · simp [get_db_connection, hurl] at hc
          exact hc.symm
    rw [hdb] at hc
    simp [FetchRecentMetricData, hc] at hsucc
    obtain ⟨h1, h2⟩ := hsucc
    refine ⟨h1.symm, ?_, recentMetricRows_sorted db, recentMetricRows_siteid_isSome db, ?_⟩
    · rw [← h1]
      simpa using recentMetricRows_length_le db
    · intro m hm
      refine ⟨?_, ?_, ?_⟩ <;> intro hnull <;>
        simp [shapeRecentRow, shapeMetricValue, hnull]

/-- C6 (witness): the success shape evaluated on the one-site snapshot. -/
theorem C6_witness :
    ([⟨12, "Dublin-1", "2024-01-01 10:00:00", PyNum.intZero, PyNum.intZero,
        PyNum.float 2⟩] : List RecentDataEntry) =
      (recentMetricRows dbOneSite).map (shapeRecentRow dbOneSite) ∧
    ([⟨12, "Dublin-1", "2024-01-01 10:00:00", PyNum.intZero, PyNum.intZero,
        PyNum.float 2⟩] : List RecentDataEntry).length ≤ 50 :=
  ⟨(C6_confirmed (some dbUrl) dbOneSite
      [⟨12, "Dublin-1", "2024-01-01 10:00:00", PyNum.intZero, PyNum.intZero,
        PyNum.float 2⟩] 1 (by decide)).1,
   (C6_confirmed (some dbUrl) dbOneSite
      [⟨12, "Dublin-1", "2024-01-01 10:00:00", PyNum.intZero, PyNum.intZero,
        PyNum.float 2⟩] 1 (by decide)).2.1⟩

/-- C8: every successful GetActiveSites response lists exactly the
distinct sites with at least one `metricdata` row, in ascending id order,
while `totalRecords` counts every `metricdata` row, including rows with
null or unmatched site ids. -/
theorem C8_confirmed (env : Option String) (db : DB)
    (as : List SiteOut) (n tr : Nat)
    (hsucc : GetActiveSites env (Except.ok db) = ⟨200, Body.activeSitesOk as n tr⟩) :
    tr = db.metricdata.length ∧
    as = (activeSitesRows db).map shapeSiteRow ∧
    List.Sorted bySiteIdAsc (activeSitesRows db) ∧
    (activeSitesRows db).Nodup ∧
    ∀ s : SiteRow, s ∈ activeSitesRows db ↔
      s ∈ db.sites ∧ ∃ m ∈ db.metricdata, m.siteid = some s.site_id := by
  rcases hc : get_db_connection env (Except.ok db) with msg | e | db'
  · simp [GetActiveSites, hc] at hsucc
  · simp [GetActiveSites, hc] at hsucc
  · have hdb : db' = db := by
      rcases env with _ | url
      · simp [get_db_connection] at hc
      · by_cases hurl : url = ""
        · simp [get_db_connection, hurl] at hc
        · simp [get_db_connection, hurl] at hc
          exact hc.symm
    rw [hdb] at hc
    simp [GetActiveSites, hc] at hsucc
    obtain ⟨h1, h2, h3⟩ := hsucc
    refine ⟨h3.symm, h1.symm, List.sorted_insertionSort bySiteIdAsc _, ?_, ?_⟩
    · exact ((List.perm_insertionSort bySiteIdAsc _).nodup_iff).mpr (List.nodup_dedup _)
    · intro s
      rw [activeSitesRows, (List.perm_insertionSort bySiteIdAsc _).mem_iff,
        List.mem_dedup, List.mem_filter]
      simp [isActive]

/-- C8 (witness): the success shape evaluated on the one-site snapshot. -/
theorem C8_witness :
    (1 : Nat) = dbOneSite.metricdata.length ∧
    ([⟨12, "Dublin-1"⟩] : List SiteOut) = (activeSitesRows dbOneSite).map shapeSiteRow :=
  ⟨(C8_confirmed (some dbUrl) dbOneSite [⟨12, "Dublin-1"⟩] 1 1 (by decide)).1,
   (C8_confirmed (some dbUrl) dbOneSite [⟨12, "Dublin-1"⟩] 1 1 (by decide)).2.1⟩
